import Mathlib

/-!
# Verification of the PokeSnipe external asset loader

A shallow embedding of `src/scripts/asset-loader.js` (class `AssetLoader`).

Modelling conventions:
* The browser network is an oracle `net : Nat → Option String → FetchOutcome`:
  the `k`-th `fetch` issued by the program, on a (possibly `undefined`) URL,
  yields a 2xx response with a body, a non-2xx response, or a thrown error.
  Each operation additionally returns the list of URLs it fetched (in order)
  and the list of backoff sleeps it performed, so that network-access and
  timing claims are observable.
* JavaScript truthiness on the string-or-undefined values the code tests
  (`cssConfig.github_raw`, `cssContent`, `configUrl`, ...) is modelled by
  `strTruthy : Option String → Bool` (`undefined` and `""` are falsy), and
  the falsy-coalescing `a || b` on such values by `jsOr` / `jsOrNat`.
* `Date.now()` is an `Int`-valued clock passed in by the caller; the two
  reads inside one `loadCSS` call are identified (the call is atomic up to
  its suspension points, and no claim separates the two reads).
* Thrown errors are values of `LoadError`; `typeError` models the uncaught
  `TypeError` that line 61 raises when `config.cdn_config` is absent while
  a cache entry exists.
-/

/-- Outcome of one `fetch(url)` followed by `response.text()`:
a 2xx response with its body text, a non-2xx response, or a network error
(the promise rejects). -/
inductive FetchOutcome where
  | success (body : String)
  | httpError (status : Nat)
  | netFail
deriving DecidableEq

/-- One entry of `config.assets.css`: the named source URLs plus the
`fallback` tag. A missing field is `none` (JS `undefined`). -/
structure CssAsset where
  github_raw : Option String
  github_pages : Option String
  fallback : Option String
deriving DecidableEq

/-- `config.cdn_config`. Fields may be absent in a remotely-loaded config. -/
structure CdnConfig where
  primary_host : Option String
  cache_duration : Option Int
  retry_attempts : Option Nat
  retry_delay : Option Nat
deriving DecidableEq

/-- The configuration object: `version`, `assets.css` (an association list
keyed by asset name, preserving JS object key order), `cdn_config`, and the
optional `update_check_url`. -/
structure Config where
  version : String
  css : List (String × CssAsset)
  cdn_config : Option CdnConfig
  update_check_url : Option String
deriving DecidableEq

/-- Outcome of one `fetch(url)` followed by `response.json()` on a JSON
endpoint (`loadConfig`, `checkForUpdates`): a decoded configuration, a 2xx
response whose body fails to decode, a non-2xx response, or a network error. -/
inductive JsonOutcome where
  | success (cfg : Config)
  | decodeError
  | httpError (status : Nat)
  | netFail
deriving DecidableEq

/-- A cache entry `{content, timestamp}` as stored by `loadCSS`. -/
structure CacheEntry where
  content : String
  timestamp : Int
deriving DecidableEq

/-- The mutable fields of an `AssetLoader` instance: `this.config`,
`this.cache` (a `Map`, modelled as an insertion-ordered association list),
and the constructor defaults `this.retryAttempts` / `this.retryDelay`. -/
structure LoaderState where
  config : Option Config
  cache : List (String × CacheEntry)
  retryAttempts : Nat
  retryDelay : Nat
deriving DecidableEq

/-- `new AssetLoader()`. -/
def AssetLoader.new : LoaderState :=
  { config := none, cache := [], retryAttempts := 3, retryDelay := 1000 }

/-- JS truthiness of a string-or-undefined value: `undefined` and `""` are
falsy, every other string is truthy. -/
def strTruthy : Option String → Bool
  | none => false
  | some s => s != ""

/-- JS `a || b` on string-or-undefined values. -/
def jsOr (a b : Option String) : Option String :=
  if strTruthy a then a else b

/-- JS `a || b` where `a` is a possibly-absent number (absent or `0` is
falsy) and `b` a number. -/
def jsOrNat (a : Option Nat) (b : Nat) : Nat :=
  match a with
  | some n => if n = 0 then b else n
  | none => b

/-- Association-list lookup (JS `map.get` / object property access),
first binding wins. -/
def lookupA {α : Type} (l : List (String × α)) (key : String) : Option α :=
  match l with
  | [] => none
  | (k, v) :: rest => if k = key then some v else lookupA rest key

/-- `Map.prototype.set`: replace the entry in place if the key is present,
else append. -/
def mapSet (l : List (String × CacheEntry)) (key : String) (v : CacheEntry) :
    List (String × CacheEntry) :=
  match l with
  | [] => [(key, v)]
  | (k, w) :: rest =>
      if k = key then (key, v) :: rest else (k, w) :: mapSet rest key v

/-- What one retry-fetch pass returns: the `cssContent` (the sentinel `none`
when all attempts were exhausted), the URLs fetched in order, and the
backoff sleeps performed in order. -/
structure FetchRet where
  content : Option String
  requests : List (Option String)
  delays : List Nat
deriving DecidableEq

/-- Whether a fetch outcome is a 2xx response (`response.ok`). -/
def isSuccessOutcome : FetchOutcome → Bool
  | .success _ => true
  | _ => false

/-- The loop body of `fetchWithRetry` (lines 141-159): `remaining` attempts
left, `k` the global fetch counter, `i` the attempt index. On a 2xx response
the body text is returned immediately; otherwise, unless this was the last
attempt, the loop sleeps `delay * (i + 1)` and retries; after the last
attempt it returns the sentinel `none`. -/
def fetchAttempts (net : Nat → Option String → FetchOutcome)
    (url : Option String) (delay : Nat) :
    Nat → Nat → Nat → FetchRet
  | 0, _, _ => ⟨none, [], []⟩
  | remaining + 1, k, i =>
    match net k url with
    | .success body => ⟨some body, [url], []⟩
    | _ =>
      if remaining = 0 then
        ⟨none, [url], []⟩
      else
        let r := fetchAttempts net url delay remaining (k + 1) (i + 1)
        ⟨r.content, url :: r.requests, delay * (i + 1) :: r.delays⟩

/-- `maxAttempts` at line 138:
`attempts || this.config?.cdn_config?.retry_attempts || this.retryAttempts`. -/
def effectiveAttempts (st : LoaderState) (attempts : Option Nat) : Nat :=
  jsOrNat attempts
    (jsOrNat (st.config.bind fun c => c.cdn_config.bind fun cc => cc.retry_attempts)
      st.retryAttempts)

/-- `delay` at line 139:
`this.config?.cdn_config?.retry_delay || this.retryDelay`. -/
def effectiveDelay (st : LoaderState) : Nat :=
  jsOrNat (st.config.bind fun c => c.cdn_config.bind fun cc => cc.retry_delay)
    st.retryDelay

/-- `fetchWithRetry(url, attempts)` (lines 137-162), started at global fetch
counter `k`. -/
def fetchWithRetry (st : LoaderState) (net : Nat → Option String → FetchOutcome)
    (url : Option String) (attempts : Option Nat) (k : Nat) : FetchRet :=
  fetchAttempts net url (effectiveDelay st) (effectiveAttempts st attempts) k 0

/-- The errors `loadCSS` can throw. -/
inductive LoadError where
  | notConfigured
  | assetNotFound (name : String)
  | loadFailed (name : String)
  | typeError
deriving DecidableEq

/-- Result of a `loadCSS` call. -/
inductive LoadResult where
  | ok (content : String)
  | error (e : LoadError)
deriving DecidableEq

/-- What a `loadCSS` call returns: its result, the updated instance state,
the URLs fetched in order, the backoff sleeps, and whether the fallback-URL
branch (lines 71-76) ran. -/
structure LoadRet where
  result : LoadResult
  state : LoaderState
  requests : List (Option String)
  delays : List Nat
  usedFallback : Bool
deriving DecidableEq

/-- The network phase of `loadCSS` (lines 67-76): fetch the primary URL
(`github_raw || github_pages`) with retries; if that yields a falsy
`cssContent` and both `github_pages` and `github_raw` are truthy, fetch the
fallback URL (`github_pages === primaryUrl ? github_raw : github_pages`)
with retries and use its result. -/
def loadCSSFetchPhase (st : LoaderState) (net : Nat → Option String → FetchOutcome)
    (cssConfig : CssAsset) (k : Nat) : FetchRet × Bool × Option (Option String) :=
  let primaryUrl := jsOr cssConfig.github_raw cssConfig.github_pages
  let r1 := fetchWithRetry st net primaryUrl none k
  if !strTruthy r1.content && strTruthy cssConfig.github_pages
      && strTruthy cssConfig.github_raw then
    let fallbackUrl :=
      if cssConfig.github_pages = primaryUrl then cssConfig.github_raw
      else cssConfig.github_pages
    let r2 := fetchWithRetry st net fallbackUrl none (k + r1.requests.length)
    (⟨r2.content, r1.requests ++ r2.requests, r1.delays ++ r2.delays⟩,
      true, some fallbackUrl)
  else
    (r1, false, none)

/-- Lines 67-88 of `loadCSS`: the network phase followed by the
store-in-cache-or-throw step (`if (cssContent)` is a truthiness test, so an
empty body counts as no content). -/
def loadCSSFetchStore (st : LoaderState) (net : Nat → Option String → FetchOutcome)
    (now : Int) (assetName : String) (cssConfig : CssAsset) (cacheKey : String)
    (k : Nat) : LoadRet :=
  let phase := loadCSSFetchPhase st net cssConfig k
  match phase.1.content with
  | some c =>
      if c = "" then
        ⟨.error (.loadFailed assetName), st, phase.1.requests, phase.1.delays, phase.2.1⟩
      else
        ⟨.ok c, { st with cache := mapSet st.cache cacheKey ⟨c, now⟩ },
          phase.1.requests, phase.1.delays, phase.2.1⟩
  | none =>
      ⟨.error (.loadFailed assetName), st, phase.1.requests, phase.1.delays, phase.2.1⟩

/-- The cache-freshness test at line 61:
`Date.now() - cached.timestamp < this.config.cdn_config.cache_duration`.
When `cache_duration` is absent the comparison is `< undefined`, i.e.
`< NaN`, which is false. -/
def cacheFresh (cc : CdnConfig) (cached : CacheEntry) (now : Int) : Bool :=
  match cc.cache_duration with
  | some d => now - cached.timestamp < d
  | none => false

/-- `loadCSS(assetName)` (lines 47-89), called at clock time `now` with the
global fetch counter at `k`. -/
def loadCSS (st : LoaderState) (net : Nat → Option String → FetchOutcome)
    (now : Int) (assetName : String) (k : Nat) : LoadRet :=
  match st.config with
  | none => ⟨.error .notConfigured, st, [], [], false⟩
  | some cfg =>
    match lookupA cfg.css assetName with
    | none => ⟨.error (.assetNotFound assetName), st, [], [], false⟩
    | some cssConfig =>
      let cacheKey := "css_" ++ assetName
      match lookupA st.cache cacheKey with
      | some cached =>
        match cfg.cdn_config with
        | none => ⟨.error .typeError, st, [], [], false⟩
        | some cc =>
          if cacheFresh cc cached now then
            ⟨.ok cached.content, st, [], [], false⟩
          else
            loadCSSFetchStore st net now assetName cssConfig cacheKey k
      | none => loadCSSFetchStore st net now assetName cssConfig cacheKey k

/-- The embedded fallback configuration (lines 26-42). -/
def defaultConfig : Config :=
  { version := "1.0.0"
  , css := [("popup",
      { github_raw :=
          some "https://raw.githubusercontent.com/pokessniper/pokesnipe-assets/main/styles/popup.css"
      , github_pages := none
      , fallback := some "inline" })]
  , cdn_config := some
      { primary_host := some "github_raw"
      , cache_duration := some 300000
      , retry_attempts := some 3
      , retry_delay := some 1000 }
  , update_check_url := none }

/-- `loadConfig(configUrl)` (lines 13-44): on a 2xx response that decodes,
store and return the remote configuration; on any failure (network error,
non-2xx, decode failure) store and return `defaultConfig`. Never throws. -/
def loadConfig (st : LoaderState) (outcome : JsonOutcome) : Config × LoaderState :=
  match outcome with
  | .success cfg => (cfg, { st with config := some cfg })
  | _ => (defaultConfig, { st with config := some defaultConfig })

/-- What a `checkForUpdates` call returns: its boolean result and the number
of network fetches it performed. -/
structure CheckRet where
  result : Bool
  requests : Nat
deriving DecidableEq

/-- `checkForUpdates()` (lines 165-182). -/
def checkForUpdates (st : LoaderState) (outcome : JsonOutcome) : CheckRet :=
  match st.config with
  | none => ⟨false, 0⟩
  | some cfg =>
    if !strTruthy cfg.update_check_url then ⟨false, 0⟩
    else
      match outcome with
      | .success latest => ⟨latest.version != cfg.version, 1⟩
      | _ => ⟨false, 1⟩

/-- `clearCache()` (lines 185-188). -/
def clearCache (st : LoaderState) : LoaderState :=
  { st with cache := [] }

/-! ## Concrete instances used to exercise the claims -/

/-- A network on which every fetch fails. -/
def exNetFail : Nat → Option String → FetchOutcome := fun _ _ => .netFail

/-- A network on which every fetch is a 2xx with body `"body"`. -/
def exNetOK : Nat → Option String → FetchOutcome := fun _ _ => .success "body"

/-- A network whose second fetch (index 1) succeeds and all others fail. -/
def exNetSecond : Nat → Option String → FetchOutcome :=
  fun k _ => if k = 1 then .success "body" else .netFail

/-- A network on which URL `"P"` always fails and every other URL succeeds. -/
def exNetPS : Nat → Option String → FetchOutcome :=
  fun _ u => if u = some "P" then .netFail else .success "sbody"

/-- An asset with distinct primary and secondary sources. -/
def exAsset : CssAsset := ⟨some "P", some "S", none⟩

/-- A configuration with the `exAsset` popup, 3 retry attempts, 1000ms delay. -/
def exCfg : Config :=
  ⟨"1.0.0", [("popup", exAsset)], some ⟨none, some 100, some 3, some 1000⟩, none⟩

/-- A freshly configured loader holding `exCfg` with an empty cache. -/
def exSt : LoaderState := ⟨some exCfg, [], 3, 1000⟩

/-- An asset whose two sources are configured but equal. -/
def exAssetEq : CssAsset := ⟨some "u", some "u", none⟩

/-- A configuration holding `exAssetEq`, with a 1-attempt retry budget. -/
def exCfgEq : Config :=
  ⟨"1.0.0", [("popup", exAssetEq)], some ⟨none, some 100, some 1, some 1⟩, none⟩

/-- A loader holding `exCfgEq` with an empty cache. -/
def exStEq : LoaderState := ⟨some exCfgEq, [], 3, 1000⟩

/-- An asset with only a primary source. -/
def exAssetSolo : CssAsset := ⟨some "u", none, none⟩

/-- A configuration holding `exAssetSolo`, cache TTL 100ms, 1 retry attempt. -/
def exCfgSolo : Config :=
  ⟨"1.0.0", [("popup", exAssetSolo)], some ⟨none, some 100, some 1, some 1⟩, none⟩

/-- A loader holding `exCfgSolo` whose cache holds `"c"` stored at time 0. -/
def exStSolo : LoaderState := ⟨some exCfgSolo, [("css_popup", ⟨"c", 0⟩)], 3, 1000⟩

/-- A configuration whose `retry_attempts` is the falsy `0`. -/
def exCfgZero : Config :=
  ⟨"1.0.0", [("popup", exAssetSolo)], some ⟨none, some 100, some 0, some 1⟩, none⟩

/-- A loader holding `exCfgZero`. -/
def exStZero : LoaderState := ⟨some exCfgZero, [], 3, 1000⟩

/-- A configuration with an update-check URL and version `"1.0.0"`. -/
def exCfgUpd : Config := ⟨"1.0.0", [], none, some "cu"⟩

/-- A loader holding `exCfgUpd`. -/
def exStUpd : LoaderState := ⟨some exCfgUpd, [], 3, 1000⟩

/-- A remote configuration with version `"2.0.0"`. -/
def exCfgV2 : Config := ⟨"2.0.0", [], none, none⟩

/-! ## Lemmas about the retry loop -/

/-- Splicing a head delay onto a shifted linear-backoff delay list. -/
theorem delayList_succ (d i L : Nat) :
    d * (i + 1) :: (List.range L).map (fun t => d * (i + 1 + 1 + t)) =
      (List.range (L + 1)).map (fun t => d * (i + 1 + t)) := by
  rw [List.range_succ_eq_map, List.map_cons, List.map_map]
  refine List.cons_eq_cons.mpr ⟨by ring, ?_⟩
  apply List.map_congr_left
  intro t _
  show d * (i + 1 + 1 + t) = d * (i + 1 + Nat.succ t)
  congr 1
  omega

/-- Unfolding one failed attempt of the retry loop when it is not the last. -/
theorem fetchAttempts_succ_fail (net : Nat → Option String → FetchOutcome)
    (url : Option String) (d m k i : Nat) (hm : m ≠ 0)
    (hfail : isSuccessOutcome (net k url) = false) :
    fetchAttempts net url d (m + 1) k i =
      ⟨(fetchAttempts net url d m (k + 1) (i + 1)).content,
        url :: (fetchAttempts net url d m (k + 1) (i + 1)).requests,
        d * (i + 1) :: (fetchAttempts net url d m (k + 1) (i + 1)).delays⟩ := by
  cases hnet : net k url with
  | success body => rw [hnet] at hfail; simp [isSuccessOutcome] at hfail
  | httpError status => simp [fetchAttempts, hnet, hm]
  | netFail => simp [fetchAttempts, hnet, hm]

/-- When every one of the `m` attempts fails, the retry loop consumes exactly
`m` fetches of `url`, sleeps `d * (i+1), d * (i+2), ...` after each attempt
but the last, and returns the sentinel. -/
theorem fetchAttempts_all_fail (net : Nat → Option String → FetchOutcome)
    (url : Option String) (d : Nat) :
    ∀ (m k i : Nat), (∀ j, j < m → isSuccessOutcome (net (k + j) url) = false) →
      fetchAttempts net url d m k i =
        ⟨none, List.replicate m url,
          (List.range (m - 1)).map (fun t => d * (i + 1 + t))⟩ := by
  intro m
  induction m with
  | zero => intro k i _; rfl
  | succ m ih =>
    intro k i h
    have h0 : isSuccessOutcome (net k url) = false := by
      have := h 0 (Nat.succ_pos m); simpa using this
    rcases Nat.eq_zero_or_pos m with hm | hm
    · subst hm
      cases hnet : net k url with
      | success body => rw [hnet] at h0; simp [isSuccessOutcome] at h0
      | httpError status => simp [fetchAttempts, hnet]
      | netFail => simp [fetchAttempts, hnet]
    · have hrec := ih (k + 1) (i + 1) (fun j hj => by
        have := h (j + 1) (by omega)
        simpa [Nat.add_assoc, Nat.add_comm 1 j] using this)
      rw [fetchAttempts_succ_fail net url d m k i (by omega) h0, hrec]
      simp only [FetchRet.mk.injEq, true_and]
      constructor
      · rw [List.replicate_succ]
      · obtain ⟨m', rfl⟩ : ∃ m', m = m' + 1 := ⟨m - 1, by omega⟩
        rw [Nat.add_sub_cancel, Nat.add_sub_cancel]
        exact delayList_succ d i m'

/-- When the first success is the attempt at relative index `j`, the retry
loop returns that body immediately after `j + 1` fetches, having slept after
each of the `j` failed attempts before it. -/
theorem fetchAttempts_first_success (net : Nat → Option String → FetchOutcome)
    (url : Option String) (d : Nat) (body : String) :
    ∀ (j m k i : Nat), j < m → net (k + j) url = .success body →
      (∀ t, t < j → isSuccessOutcome (net (k + t) url) = false) →
      fetchAttempts net url d m k i =
        ⟨some body, List.replicate (j + 1) url,
          (List.range j).map (fun t => d * (i + 1 + t))⟩ := by
  intro j
  induction j with
  | zero =>
    intro m k i hm hs _
    obtain ⟨m', rfl⟩ : ∃ m', m = m' + 1 := ⟨m - 1, by omega⟩
    have : net k url = .success body := by simpa using hs
    simp [fetchAttempts, this]
  | succ j ih =>
    intro m k i hm hs hf
    obtain ⟨m', rfl⟩ : ∃ m', m = m' + 1 := ⟨m - 1, by omega⟩
    have h0 : isSuccessOutcome (net k url) = false := by
      have := hf 0 (Nat.succ_pos j); simpa using this
    have hrec := ih m' (k + 1) (i + 1) (by omega)
      (by rw [show k + 1 + j = k + (j + 1) by omega]; exact hs)
      (fun t ht => by
        have := hf (t + 1) (by omega)
        simpa [Nat.add_assoc, Nat.add_comm 1 t] using this)
    rw [fetchAttempts_succ_fail net url d m' k i (by omega) h0, hrec]
    simp only [FetchRet.mk.injEq, true_and]
    exact ⟨(List.replicate_succ url (j + 1)).symm, delayList_succ d i j⟩

/-- A retry loop given at least one attempt issues at least one fetch. -/
theorem fetchAttempts_requests_pos (net : Nat → Option String → FetchOutcome)
    (url : Option String) (d m k i : Nat) (hm : 1 ≤ m) :
    1 ≤ (fetchAttempts net url d m k i).requests.length := by
  obtain ⟨m', rfl⟩ : ∃ m', m = m' + 1 := ⟨m - 1, by omega⟩
  cases hnet : net k url with
  | success body => simp [fetchAttempts, hnet]
  | httpError status =>
    rcases Nat.eq_zero_or_pos m' with hz | hz
    · subst hz; simp [fetchAttempts, hnet]
    · simp [fetchAttempts, hnet, if_neg (by omega : ¬ m' = 0)]
  | netFail =>
    rcases Nat.eq_zero_or_pos m' with hz | hz
    · subst hz; simp [fetchAttempts, hnet]
    · simp [fetchAttempts, hnet, if_neg (by omega : ¬ m' = 0)]

/-- For any network behaviour, the retry loop sleeps exactly once between
consecutive attempts — `d * (i + 1 + t)` after the attempt at relative index
`t` — and never after its last attempt: the delay list is determined by the
number of fetches actually issued. -/
theorem fetchAttempts_delays_shape (net : Nat → Option String → FetchOutcome)
    (url : Option String) (d : Nat) :
    ∀ (m k i : Nat),
      (fetchAttempts net url d m k i).delays =
        (List.range ((fetchAttempts net url d m k i).requests.length - 1)).map
          (fun t => d * (i + 1 + t)) := by
  intro m
  induction m with
  | zero => intro k i; rfl
  | succ m ih =>
    intro k i
    cases hnet : net k url with
    | success body => simp [fetchAttempts, hnet]
    | httpError status =>
      rcases Nat.eq_zero_or_pos m with hz | hz
      · subst hz; simp [fetchAttempts, hnet]
      · have hlen := fetchAttempts_requests_pos net url d m (k + 1) (i + 1) hz
        have hstep := fetchAttempts_succ_fail net url d m k i (by omega)
          (by rw [hnet]; rfl)
        rw [hstep]
        obtain ⟨L, hL⟩ : ∃ L, (fetchAttempts net url d m (k + 1) (i + 1)).requests.length
            = L + 1 := ⟨(fetchAttempts net url d m (k + 1) (i + 1)).requests.length - 1, by omega⟩
        show d * (i + 1) :: (fetchAttempts net url d m (k + 1) (i + 1)).delays =
          (List.range ((url :: (fetchAttempts net url d m (k + 1) (i + 1)).requests).length - 1)).map
            (fun t => d * (i + 1 + t))
        rw [ih (k + 1) (i + 1), hL, List.length_cons, hL, Nat.add_sub_cancel,
          Nat.add_sub_cancel]
        exact delayList_succ d i L
    | netFail =>
      rcases Nat.eq_zero_or_pos m with hz | hz
      · subst hz; simp [fetchAttempts, hnet]
      · have hlen := fetchAttempts_requests_pos net url d m (k + 1) (i + 1) hz
        have hstep := fetchAttempts_succ_fail net url d m k i (by omega)
          (by rw [hnet]; rfl)
        rw [hstep]
        obtain ⟨L, hL⟩ : ∃ L, (fetchAttempts net url d m (k + 1) (i + 1)).requests.length
            = L + 1 := ⟨(fetchAttempts net url d m (k + 1) (i + 1)).requests.length - 1, by omega⟩
        show d * (i + 1) :: (fetchAttempts net url d m (k + 1) (i + 1)).delays =
          (List.range ((url :: (fetchAttempts net url d m (k + 1) (i + 1)).requests).length - 1)).map
            (fun t => d * (i + 1 + t))
        rw [ih (k + 1) (i + 1), hL, List.length_cons, hL, Nat.add_sub_cancel,
          Nat.add_sub_cancel]
        exact delayList_succ d i L

/-! ## Lemmas about `loadCSS` -/

/-- `Map.set` followed by `Map.get` on the same key. -/
theorem lookupA_mapSet_self (l : List (String × CacheEntry)) (key : String)
    (v : CacheEntry) : lookupA (mapSet l key v) key = some v := by
  induction l with
  | nil => simp [mapSet, lookupA]
  | cons hd tl ih =>
    obtain ⟨k, w⟩ := hd
    by_cases hk : k = key
    · subst hk; simp [mapSet, lookupA]
    · simp [mapSet, lookupA, hk, ih]

/-- `loadCSS` never touches `this.config`. -/
theorem loadCSS_config_preserved (st : LoaderState)
    (net : Nat → Option String → FetchOutcome) (now : Int) (assetName : String)
    (k : Nat) : (loadCSS st net now assetName k).state.config = st.config := by
  unfold loadCSS loadCSSFetchStore
  repeat' split
  all_goals try rfl
  all_goals
    cases hlu : lookupA st.cache ("css_" ++ assetName) <;> simp only [hlu] <;> repeat' split
  all_goals simp

/-- `loadCSS` never touches the constructor defaults either. -/
theorem loadCSS_defaults_preserved (st : LoaderState)
    (net : Nat → Option String → FetchOutcome) (now : Int) (assetName : String)
    (k : Nat) : (loadCSS st net now assetName k).state.retryAttempts = st.retryAttempts
      ∧ (loadCSS st net now assetName k).state.retryDelay = st.retryDelay := by
  unfold loadCSS loadCSSFetchStore
  repeat' split
  all_goals try exact ⟨rfl, rfl⟩
  all_goals
    cases hlu : lookupA st.cache ("css_" ++ assetName) <;> simp only [hlu] <;> repeat' split
  all_goals simp
/-- The cache-hit branch (lines 57-65): a configured loader with a fresh
entry returns the cached content, touching neither the network nor the state. -/
theorem loadCSS_hit (st : LoaderState) (net : Nat → Option String → FetchOutcome)
    (now : Int) (assetName : String) (k : Nat) (cfg : Config) (a : CssAsset)
    (e : CacheEntry) (cc : CdnConfig)
    (hc : st.config = some cfg) (ha : lookupA cfg.css assetName = some a)
    (he : lookupA st.cache ("css_" ++ assetName) = some e)
    (hcc : cfg.cdn_config = some cc) (hfresh : cacheFresh cc e now = true) :
    loadCSS st net now assetName k = ⟨.ok e.content, st, [], [], false⟩ := by
  unfold loadCSS
  rw [hc]
  simp only [ha, he, hcc, hfresh, if_true]

/-- When the cache entry is stale, `loadCSS` proceeds to the network phase. -/
theorem loadCSS_stale (st : LoaderState) (net : Nat → Option String → FetchOutcome)
    (now : Int) (assetName : String) (k : Nat) (cfg : Config) (a : CssAsset)
    (e : CacheEntry) (cc : CdnConfig)
    (hc : st.config = some cfg) (ha : lookupA cfg.css assetName = some a)
    (he : lookupA st.cache ("css_" ++ assetName) = some e)
    (hcc : cfg.cdn_config = some cc) (hfresh : cacheFresh cc e now = false) :
    loadCSS st net now assetName k =
      loadCSSFetchStore st net now assetName a ("css_" ++ assetName) k := by
  unfold loadCSS
  rw [hc]
  simp only [ha, he, hcc, hfresh]
  rfl

/-- When no cache entry exists, `loadCSS` proceeds to the network phase. -/
theorem loadCSS_miss (st : LoaderState) (net : Nat → Option String → FetchOutcome)
    (now : Int) (assetName : String) (k : Nat) (cfg : Config) (a : CssAsset)
    (hc : st.config = some cfg) (ha : lookupA cfg.css assetName = some a)
    (he : lookupA st.cache ("css_" ++ assetName) = none) :
    loadCSS st net now assetName k =
      loadCSSFetchStore st net now assetName a ("css_" ++ assetName) k := by
  unfold loadCSS
  rw [hc]
  simp only [ha, he]


/-- Whenever `loadCSS` returns content, the cache afterwards holds that very
content under `"css_" + assetName`. -/
theorem loadCSS_ok_cache (st : LoaderState) (net : Nat → Option String → FetchOutcome)
    (now : Int) (assetName : String) (k : Nat) (c : String)
    (hok : (loadCSS st net now assetName k).result = .ok c) :
    ∃ ts, lookupA (loadCSS st net now assetName k).state.cache ("css_" ++ assetName)
      = some ⟨c, ts⟩ := by
  cases hcfg : st.config with
  | none => simp only [loadCSS, hcfg] at hok; simp at hok
  | some cfg =>
    cases hca : lookupA cfg.css assetName with
    | none => simp only [loadCSS, hcfg, hca] at hok; simp at hok
    | some a =>
      cases hlu : lookupA st.cache ("css_" ++ assetName) with
      | some cached =>
        cases hcc : cfg.cdn_config with
        | none => simp only [loadCSS, hcfg, hca, hlu, hcc] at hok; simp at hok
        | some cc =>
          by_cases hfresh : cacheFresh cc cached now = true
          · rw [loadCSS_hit st net now assetName k cfg a cached cc hcfg hca hlu hcc hfresh]
              at hok ⊢
            obtain rfl : cached.content = c := by simpa using hok
            exact ⟨cached.timestamp, by simpa using hlu⟩
          · rw [loadCSS_stale st net now assetName k cfg a cached cc hcfg hca hlu hcc
              (by simpa using hfresh)] at hok ⊢
            unfold loadCSSFetchStore at hok ⊢
            cases hph : (loadCSSFetchPhase st net a k).1.content with
            | none => simp only [hph] at hok; simp at hok
            | some s =>
              simp only [hph] at hok ⊢
              by_cases hs : s = ""
              · rw [if_pos hs] at hok; simp at hok
              · rw [if_neg hs] at hok ⊢
                obtain rfl : s = c := by simpa using hok
                exact ⟨now, lookupA_mapSet_self _ _ _⟩
      | none =>
        rw [loadCSS_miss st net now assetName k cfg a hcfg hca hlu] at hok ⊢
        unfold loadCSSFetchStore at hok ⊢
        cases hph : (loadCSSFetchPhase st net a k).1.content with
        | none => simp only [hph] at hok; simp at hok
        | some s =>
          simp only [hph] at hok ⊢
          by_cases hs : s = ""
          · rw [if_pos hs] at hok; simp at hok
          · rw [if_neg hs] at hok ⊢
            obtain rfl : s = c := by simpa using hok
            exact ⟨now, lookupA_mapSet_self _ _ _⟩

/-- A `loadCSS` call that throws leaves the instance state exactly as it was. -/
theorem loadCSS_error_state (st : LoaderState) (net : Nat → Option String → FetchOutcome)
    (now : Int) (assetName : String) (k : Nat) (e : LoadError)
    (herr : (loadCSS st net now assetName k).result = .error e) :
    (loadCSS st net now assetName k).state = st := by
  cases hcfg : st.config with
  | none => simp only [loadCSS, hcfg]
  | some cfg =>
    cases hca : lookupA cfg.css assetName with
    | none => simp only [loadCSS, hcfg, hca]
    | some a =>
      cases hlu : lookupA st.cache ("css_" ++ assetName) with
      | some cached =>
        cases hcc : cfg.cdn_config with
        | none => simp only [loadCSS, hcfg, hca, hlu, hcc]
        | some cc =>
          by_cases hfresh : cacheFresh cc cached now = true
          · rw [loadCSS_hit st net now assetName k cfg a cached cc hcfg hca hlu hcc hfresh]
              at herr
            simp at herr
          · rw [loadCSS_stale st net now assetName k cfg a cached cc hcfg hca hlu hcc
              (by simpa using hfresh)] at herr ⊢
            unfold loadCSSFetchStore at herr ⊢
            cases hph : (loadCSSFetchPhase st net a k).1.content with
            | none => simp only [hph]
            | some s =>
              simp only [hph] at herr ⊢
              by_cases hs : s = ""
              · rw [if_pos hs]
              · rw [if_neg hs] at herr; simp at herr
      | none =>
        rw [loadCSS_miss st net now assetName k cfg a hcfg hca hlu] at herr ⊢
        unfold loadCSSFetchStore at herr ⊢
        cases hph : (loadCSSFetchPhase st net a k).1.content with
        | none => simp only [hph]
        | some s =>
          simp only [hph] at herr ⊢
          by_cases hs : s = ""
          · rw [if_pos hs]
          · rw [if_neg hs] at herr; simp at herr

/-- Falsy-coalescing with a positive right operand stays positive. -/
theorem jsOrNat_pos (o : Option Nat) (b : Nat) (hb : 1 ≤ b) : 1 ≤ jsOrNat o b := by
  cases o with
  | none => simpa [jsOrNat] using hb
  | some n =>
    by_cases hn : n = 0
    · simp only [jsOrNat, hn, if_pos rfl]; exact hb
    · simp only [jsOrNat, if_neg hn]; omega

/-- With the constructor default in place, the falsy-coalescing chain at
line 138 can never produce zero attempts. -/
theorem effectiveAttempts_pos (st : LoaderState) (h3 : st.retryAttempts = 3)
    (attempts : Option Nat) : 1 ≤ effectiveAttempts st attempts := by
  unfold effectiveAttempts
  apply jsOrNat_pos
  apply jsOrNat_pos
  rw [h3]
  omega

/-- The network phase issues at least one fetch whenever the retry budget is
at least one. -/
theorem loadCSSFetchPhase_requests_pos (st : LoaderState)
    (net : Nat → Option String → FetchOutcome) (a : CssAsset) (k : Nat)
    (h1 : 1 ≤ effectiveAttempts st none) :
    1 ≤ (loadCSSFetchPhase st net a k).1.requests.length := by
  simp only [loadCSSFetchPhase, fetchWithRetry]
  split
  · simp only [List.length_append]
    have := fetchAttempts_requests_pos net (jsOr a.github_raw a.github_pages)
      (effectiveDelay st) (effectiveAttempts st none) k 0 h1
    omega
  · exact fetchAttempts_requests_pos net (jsOr a.github_raw a.github_pages)
      (effectiveDelay st) (effectiveAttempts st none) k 0 h1

/-- The store-or-throw step reports exactly the fetches of the network phase. -/
theorem loadCSSFetchStore_requests (st : LoaderState)
    (net : Nat → Option String → FetchOutcome) (now : Int) (assetName : String)
    (a : CssAsset) (cacheKey : String) (k : Nat) :
    (loadCSSFetchStore st net now assetName a cacheKey k).requests =
      (loadCSSFetchPhase st net a k).1.requests := by
  simp only [loadCSSFetchStore]
  repeat' split
  all_goals rfl

/-! ## The claims -/

/-- **C3.** In the retry-fetch procedure with attempt indices `i` from `0` to
`maxAttempts - 1`, after every failed attempt that is not the last one the
procedure suspends for exactly `delayMs * (i + 1)` before the next attempt
(linear backoff), and no delay is inserted after the final attempt: for any
network behaviour the recorded sleeps are `delayMs * 1, delayMs * 2, ...`,
one per attempt actually made except the last. With `delayMs = 1000` and 3
failing attempts this gives waits of 1000ms then 2000ms. -/
theorem claim_C3_linear_backoff :
    (∀ (st : LoaderState) (net : Nat → Option String → FetchOutcome)
        (url : Option String) (attempts : Option Nat) (k : Nat),
      (fetchWithRetry st net url attempts k).delays =
        (List.range ((fetchWithRetry st net url attempts k).requests.length - 1)).map
          (fun i => effectiveDelay st * (i + 1)))
  ∧ (fetchWithRetry exSt exNetFail (some "P") none 0).delays = [1000, 2000] := by
  constructor
  · intro st net url attempts k
    rw [fetchWithRetry, fetchAttempts_delays_shape]
    apply List.map_congr_left
    intro t _
    congr 1
    omega
  · rfl

/-- **C7.** The retry-fetch procedure returns the response body text
immediately on the first 2xx response, with no further attempts (exactly
`j + 1` fetches when the first success is attempt `j`); per-attempt non-2xx
statuses and network errors never propagate (the procedure is a total
function into `FetchRet`, not an exception); and when all `maxAttempts`
attempts complete without a 2xx response it returns the sentinel `none`
("no content") rather than an error. -/
theorem claim_C7_retry_outcomes (st : LoaderState)
    (net : Nat → Option String → FetchOutcome) (url : Option String) (k : Nat) :
    (∀ (body : String) (j : Nat), j < effectiveAttempts st none →
        net (k + j) url = .success body →
        (∀ t, t < j → isSuccessOutcome (net (k + t) url) = false) →
        (fetchWithRetry st net url none k).content = some body ∧
        (fetchWithRetry st net url none k).requests = List.replicate (j + 1) url)
  ∧ ((∀ j, j < effectiveAttempts st none → isSuccessOutcome (net (k + j) url) = false) →
        (fetchWithRetry st net url none k).content = none ∧
        (fetchWithRetry st net url none k).requests
          = List.replicate (effectiveAttempts st none) url) := by
  constructor
  · intro body j hj hs hf
    rw [fetchWithRetry, fetchAttempts_first_success net url (effectiveDelay st) body j
      (effectiveAttempts st none) k 0 hj hs hf]
    exact ⟨rfl, rfl⟩
  · intro hf
    rw [fetchWithRetry, fetchAttempts_all_fail net url (effectiveDelay st)
      (effectiveAttempts st none) k 0 hf]
    exact ⟨rfl, rfl⟩

/-- Witness for C7: on a network whose second fetch succeeds with `"body"`,
a 3-attempt retry-fetch returns `"body"` after exactly 2 fetches. -/
theorem claim_C7_witness :
    (fetchWithRetry exSt exNetSecond (some "P") none 0).content = some "body" ∧
    (fetchWithRetry exSt exNetSecond (some "P") none 0).requests
      = List.replicate 2 (some "P") :=
  (claim_C7_retry_outcomes exSt exNetSecond (some "P") 0).1 "body" 1 (by decide)
    (by rfl)
    (fun t ht => by
      have h0 : t = 0 := by omega
      subst h0
      rfl)

/-- **C10.** The retry-fetch procedure always performs at least one network
attempt: the falsy-coalescing chain at line 138 makes a per-call `attempts`
override of `0` (or the absent `null`) fall through to the configured
`retry_attempts`, and a configured `retry_attempts` of `0` fall through in
turn to the constructor default of 3. -/
theorem claim_C10_attempts_coalescing (st : LoaderState)
    (net : Nat → Option String → FetchOutcome) (url : Option String) (k : Nat)
    (h3 : st.retryAttempts = 3) :
    (effectiveAttempts st (some 0) = effectiveAttempts st none)
  ∧ ((st.config.bind fun c => c.cdn_config.bind fun cc => cc.retry_attempts) = some 0 →
      effectiveAttempts st none = 3)
  ∧ (∀ attempts, 1 ≤ effectiveAttempts st attempts)
  ∧ (∀ attempts, 1 ≤ (fetchWithRetry st net url attempts k).requests.length) := by
  refine ⟨rfl, ?_, effectiveAttempts_pos st h3, ?_⟩
  · intro h
    simp [effectiveAttempts, jsOrNat, h, h3]
  · intro attempts
    exact fetchAttempts_requests_pos net url (effectiveDelay st)
      (effectiveAttempts st attempts) k 0 (effectiveAttempts_pos st h3 attempts)

/-- Witness for C10: with `retry_attempts` configured as the falsy `0` and a
per-call override of `0`, the effective budget is the constructor default 3,
and even then at least one fetch happens. -/
theorem claim_C10_witness :
    effectiveAttempts exStZero none = 3 ∧
    1 ≤ (fetchWithRetry exStZero exNetFail (some "u") (some 0) 0).requests.length :=
  ⟨(claim_C10_attempts_coalescing exStZero exNetFail (some "u") 0 rfl).2.1 rfl,
   (claim_C10_attempts_coalescing exStZero exNetFail (some "u") 0 rfl).2.2.2 (some 0)⟩

/-- **C6.** `loadAsset` fails with `NotConfiguredError` whenever the active
configuration is unset, and with `AssetNotFoundError` whenever the asset
name is not in `config.assets.css`; in both cases no network fetch is issued
(the request list is empty) and the state is untouched. -/
theorem claim_C6_precondition_errors (st : LoaderState)
    (net : Nat → Option String → FetchOutcome) (now : Int) (name : String) (k : Nat) :
    (st.config = none →
        loadCSS st net now name k = ⟨.error .notConfigured, st, [], [], false⟩)
  ∧ (∀ cfg, st.config = some cfg → lookupA cfg.css name = none →
        loadCSS st net now name k = ⟨.error (.assetNotFound name), st, [], [], false⟩) := by
  constructor
  · intro h
    simp [loadCSS, h]
  · intro cfg hc ha
    simp [loadCSS, hc, ha]

/-- Witness for C6: a fresh loader throws `NotConfiguredError`, and a
configured loader throws `AssetNotFoundError` for an unknown name, both with
zero fetches. -/
theorem claim_C6_witness :
    loadCSS AssetLoader.new exNetFail 0 "popup" 0
      = ⟨.error .notConfigured, AssetLoader.new, [], [], false⟩ ∧
    loadCSS exSt exNetFail 0 "nonexistent" 0
      = ⟨.error (.assetNotFound "nonexistent"), exSt, [], [], false⟩ :=
  ⟨(claim_C6_precondition_errors AssetLoader.new exNetFail 0 "popup" 0).1 rfl,
   (claim_C6_precondition_errors exSt exNetFail 0 "nonexistent" 0).2 exCfg rfl
     (by decide)⟩

/-- **C4.** `resolveConfig` never propagates an error: for every outcome of
the HTTP GET it returns a configuration and stores it as the active
configuration; on success it returns the decoded remote configuration, and
on any failure (network error, non-2xx status, decode failure) it returns
exactly the fixed embedded default — version `"1.0.0"`, one `popup` CSS
asset with a single primary source, `cache_duration` 300000,
`retry_attempts` 3, `retry_delay` 1000. -/
theorem claim_C4_config_fallback (st : LoaderState) (o : JsonOutcome) :
    ((loadConfig st o).2.config = some (loadConfig st o).1)
  ∧ (∀ cfg, o = .success cfg → (loadConfig st o).1 = cfg)
  ∧ ((∀ cfg, o ≠ .success cfg) → (loadConfig st o).1 = defaultConfig)
  ∧ defaultConfig.version = "1.0.0"
  ∧ defaultConfig.css = [("popup",
      ⟨some "https://raw.githubusercontent.com/pokessniper/pokesnipe-assets/main/styles/popup.css",
        none, some "inline"⟩)]
  ∧ defaultConfig.cdn_config = some ⟨some "github_raw", some 300000, some 3, some 1000⟩ := by
  refine ⟨?_, ?_, ?_, rfl, rfl, rfl⟩
  · cases o <;> rfl
  · intro cfg h
    subst h
    rfl
  · intro h
    cases o with
    | success cfg => exact absurd rfl (h cfg)
    | decodeError => rfl
    | httpError s => rfl
    | netFail => rfl

/-- Witness for C4: a 404 on the config URL yields exactly the embedded
default, whose version is `"1.0.0"`. -/
theorem claim_C4_witness :
    (loadConfig AssetLoader.new (JsonOutcome.httpError 404)).1 = defaultConfig ∧
    defaultConfig.version = "1.0.0" :=
  ⟨(claim_C4_config_fallback AssetLoader.new (JsonOutcome.httpError 404)).2.2.1
      (fun _ h => JsonOutcome.noConfusion h),
   (claim_C4_config_fallback AssetLoader.new (JsonOutcome.httpError 404)).2.2.2.1⟩

/-- **C5.** `checkForUpdates` returns false with zero network fetches when
the active configuration is unset or no (truthy) `update_check_url` is
configured; otherwise it fetches that URL (one fetch) and on success returns
true iff the remote `version` differs by value from the active one, while
any network or decode failure yields false. -/
theorem claim_C5_update_check (st : LoaderState) (o : JsonOutcome) :
    (st.config = none → checkForUpdates st o = ⟨false, 0⟩)
  ∧ (∀ cfg, st.config = some cfg → strTruthy cfg.update_check_url = false →
      checkForUpdates st o = ⟨false, 0⟩)
  ∧ (∀ cfg, st.config = some cfg → strTruthy cfg.update_check_url = true →
      (checkForUpdates st o).requests = 1
    ∧ (∀ latest, o = .success latest →
        (checkForUpdates st o).result = (latest.version != cfg.version))
    ∧ ((∀ latest, o ≠ .success latest) → (checkForUpdates st o).result = false)) := by
  refine ⟨?_, ?_, ?_⟩
  · intro h
    simp [checkForUpdates, h]
  · intro cfg hc hu
    simp [checkForUpdates, hc, hu]
  · intro cfg hc hu
    refine ⟨?_, ?_, ?_⟩
    · cases o <;> simp [checkForUpdates, hc, hu]
    · intro latest h
      subst h
      simp [checkForUpdates, hc, hu]
    · intro h
      cases o with
      | success latest => exact absurd rfl (h latest)
      | decodeError => simp [checkForUpdates, hc, hu]
      | httpError s => simp [checkForUpdates, hc, hu]
      | netFail => simp [checkForUpdates, hc, hu]

/-- Witness for C5: with active version `"1.0.0"` and a remote `"2.0.0"`,
the check fetches once and reports an update; a fresh loader reports none
without fetching. -/
theorem claim_C5_witness :
    (checkForUpdates exStUpd (.success exCfgV2)).requests = 1 ∧
    (checkForUpdates exStUpd (.success exCfgV2)).result
      = (exCfgV2.version != exCfgUpd.version) ∧
    checkForUpdates AssetLoader.new (.success exCfgV2) = ⟨false, 0⟩ :=
  ⟨((claim_C5_update_check exStUpd (.success exCfgV2)).2.2 exCfgUpd rfl rfl).1,
   ((claim_C5_update_check exStUpd (.success exCfgV2)).2.2 exCfgUpd rfl rfl).2.1
     exCfgV2 rfl,
   (claim_C5_update_check AssetLoader.new (.success exCfgV2)).1 rfl⟩

/-- **C9.** When `loadAsset` fails with `AssetLoadError` (every network path
exhausted), the cache is left exactly as before the call: the whole state is
unchanged, so no entry is created and an existing stale entry keeps its old
content and timestamp. -/
theorem claim_C9_failure_preserves_cache (st : LoaderState)
    (net : Nat → Option String → FetchOutcome) (now : Int) (name : String) (k : Nat)
    (h : (loadCSS st net now name k).result = .error (.loadFailed name)) :
    (loadCSS st net now name k).state = st ∧
    lookupA (loadCSS st net now name k).state.cache ("css_" ++ name)
      = lookupA st.cache ("css_" ++ name) := by
  have hst := loadCSS_error_state st net now name k (.loadFailed name) h
  exact ⟨hst, by rw [hst]⟩

/-- Witness for C9: a failing load against a loader holding a stale entry
`("c", 0)` leaves the state — including that entry — untouched. -/
theorem claim_C9_witness :
    (loadCSS exStSolo exNetFail 150 "popup" 0).state = exStSolo ∧
    lookupA (loadCSS exStSolo exNetFail 150 "popup" 0).state.cache ("css_" ++ "popup")
      = lookupA exStSolo.cache ("css_" ++ "popup") :=
  claim_C9_failure_preserves_cache exStSolo exNetFail 150 "popup" 0 (by decide)

/-- **C8.** On the network path of `loadAsset` (no fresh cache entry): when
the retry-fetch phase yields content — in the code's sense of a truthy
`cssContent`, i.e. a non-`null`, non-empty body — that content is stored in
the cache under `"css_" + assetName` with the current timestamp and returned
to the caller; when every attempt yields no content (the sentinel, or the
falsy empty body) `loadAsset` fails with `AssetLoadError` carrying the asset
name. -/
theorem claim_C8_store_or_fail (st : LoaderState)
    (net : Nat → Option String → FetchOutcome) (now : Int) (name : String) (k : Nat)
    (cfg : Config) (a : CssAsset)
    (hc : st.config = some cfg) (ha : lookupA cfg.css name = some a)
    (hbypass : lookupA st.cache ("css_" ++ name) = none ∨
      ∃ e cc, lookupA st.cache ("css_" ++ name) = some e ∧ cfg.cdn_config = some cc ∧
        cacheFresh cc e now = false) :
    (∀ s, (loadCSSFetchPhase st net a k).1.content = some s → s ≠ "" →
        (loadCSS st net now name k).result = .ok s ∧
        lookupA (loadCSS st net now name k).state.cache ("css_" ++ name)
          = some ⟨s, now⟩)
  ∧ (strTruthy (loadCSSFetchPhase st net a k).1.content = false →
        (loadCSS st net now name k).result = .error (.loadFailed name)) := by
  have heq : loadCSS st net now name k =
      loadCSSFetchStore st net now name a ("css_" ++ name) k := by
    rcases hbypass with hnone | ⟨e, cc, he, hcc, hfresh⟩
    · exact loadCSS_miss st net now name k cfg a hc ha hnone
    · exact loadCSS_stale st net now name k cfg a e cc hc ha he hcc hfresh
  constructor
  · intro s hs hns
    rw [heq]
    unfold loadCSSFetchStore
    simp only [hs, if_neg hns]
    exact ⟨trivial, lookupA_mapSet_self st.cache ("css_" ++ name) ⟨s, now⟩⟩
  · intro hfalsy
    rw [heq]
    unfold loadCSSFetchStore
    cases hph : (loadCSSFetchPhase st net a k).1.content with
    | none => simp only [hph]
    | some s =>
      rw [hph] at hfalsy
      have hs : s = "" := by simpa [strTruthy] using hfalsy
      simp [hph, hs]

/-- Witness for C8: against an always-successful network, loading `popup`
returns `"body"` and caches it at the call's timestamp 5. -/
theorem claim_C8_witness :
    (loadCSS exSt exNetOK 5 "popup" 0).result = .ok "body" ∧
    lookupA (loadCSS exSt exNetOK 5 "popup" 0).state.cache ("css_" ++ "popup")
      = some ⟨"body", 5⟩ :=
  (claim_C8_store_or_fail exSt exNetOK 5 "popup" 0 exCfg exAsset rfl (by decide)
    (Or.inl rfl)).1 "body" (by decide) (by decide)

/-- In the primary-fails / secondary-succeeds scenario, the network phase
retries the primary URL to exhaustion and then fetches the secondary once,
returning its body. -/
theorem loadCSSFetchPhase_PS (st : LoaderState)
    (net : Nat → Option String → FetchOutcome) (a : CssAsset) (k : Nat) (s : String)
    (hm : 1 ≤ effectiveAttempts st none)
    (htr : strTruthy a.github_raw = true) (htp : strTruthy a.github_pages = true)
    (hfailP : ∀ j, isSuccessOutcome (net j a.github_raw) = false)
    (hsuccS : ∀ j, net j a.github_pages = .success s) :
    (loadCSSFetchPhase st net a k).1.content = some s ∧
    (loadCSSFetchPhase st net a k).1.requests =
      List.replicate (effectiveAttempts st none) a.github_raw ++ [a.github_pages] := by
  have hpu : jsOr a.github_raw a.github_pages = a.github_raw := by
    simp [jsOr, htr]
  have hr1 : fetchWithRetry st net a.github_raw none k =
      ⟨none, List.replicate (effectiveAttempts st none) a.github_raw,
        (List.range (effectiveAttempts st none - 1)).map
          (fun t => effectiveDelay st * (0 + 1 + t))⟩ := by
    rw [fetchWithRetry]
    exact fetchAttempts_all_fail net a.github_raw (effectiveDelay st)
      (effectiveAttempts st none) k 0 (fun j _ => hfailP (k + j))
  have hfb : (if a.github_pages = a.github_raw then a.github_raw else a.github_pages)
      = a.github_pages := by
    split
    · rename_i h
      exact h.symm
    · rfl
  have hr2 : ∀ k2, fetchWithRetry st net a.github_pages none k2 =
      ⟨some s, [a.github_pages], []⟩ := by
    intro k2
    rw [fetchWithRetry]
    have h := fetchAttempts_first_success net a.github_pages (effectiveDelay st) s 0
      (effectiveAttempts st none) k2 0 (by omega) (by simpa using hsuccS k2)
      (fun t ht => absurd ht (Nat.not_lt_zero t))
    simpa using h
  simp only [loadCSSFetchPhase, hpu, hr1, htp, htr]
  simp [hfb, hr2, strTruthy]

/-- C1 counterexample: with both sources configured and **equal** (`"u"`),
and the primary retry-fetch yielding no content, `loadCSS` still performs a
second retry-fetch, and that second pass targets `"u"` — the very URL
already tried — contradicting "a second retry-fetch is performed exactly
when both sources are configured **and distinct**, targeting whichever URL
is not equal to the primary already tried". -/
theorem claim_C1_counterexample :
    exAssetEq.github_raw = exAssetEq.github_pages ∧
    strTruthy (fetchWithRetry exStEq exNetFail exAssetEq.github_raw none 0).content = false ∧
    (loadCSS exStEq exNetFail 0 "popup" 0).usedFallback = true ∧
    (loadCSS exStEq exNetFail 0 "popup" 0).requests = [some "u", some "u"] := by
  decide

/-- **C1 (amended).** In `loadAsset`, a second retry-fetch is performed
exactly when the primary retry-fetch yields a falsy `cssContent` (the
sentinel or an empty body) **and** both the primary and secondary sources
are configured (truthy), whether or not they are distinct; the second fetch
targets the secondary URL `github_pages` — which coincides with the primary
URL already tried when the two sources are equal. In particular, with
primary P failing every attempt and secondary S succeeding with nonempty
content, `loadAsset` returns S's content after having retried P first. -/
theorem claim_C1_fallback_selection (st : LoaderState)
    (net : Nat → Option String → FetchOutcome) (now : Int) (name : String) (k : Nat)
    (cfg : Config) (a : CssAsset) (s : String)
    (h3 : st.retryAttempts = 3)
    (hc : st.config = some cfg) (ha : lookupA cfg.css name = some a)
    (hbypass : lookupA st.cache ("css_" ++ name) = none ∨
      ∃ e cc, lookupA st.cache ("css_" ++ name) = some e ∧ cfg.cdn_config = some cc ∧
        cacheFresh cc e now = false) :
    ((loadCSSFetchPhase st net a k).2.1 = true ↔
      (strTruthy (fetchWithRetry st net (jsOr a.github_raw a.github_pages) none k).content
          = false
        ∧ strTruthy a.github_pages = true ∧ strTruthy a.github_raw = true))
  ∧ ((loadCSSFetchPhase st net a k).2.1 = true →
      (loadCSSFetchPhase st net a k).2.2 = some a.github_pages)
  ∧ ((∀ j, isSuccessOutcome (net j a.github_raw) = false) →
      (∀ j, net j a.github_pages = .success s) → s ≠ "" →
      strTruthy a.github_raw = true → strTruthy a.github_pages = true →
      (loadCSS st net now name k).result = .ok s ∧
      (loadCSS st net now name k).requests =
        List.replicate (effectiveAttempts st none) a.github_raw ++ [a.github_pages]) := by
  have h0 : (loadCSSFetchPhase st net a k).2.1 = true ↔
      (strTruthy (fetchWithRetry st net (jsOr a.github_raw a.github_pages) none k).content
          = false
        ∧ strTruthy a.github_pages = true ∧ strTruthy a.github_raw = true) := by
    cases hx : strTruthy (fetchWithRetry st net (jsOr a.github_raw a.github_pages) none k).content <;>
      cases hyp : strTruthy a.github_pages <;>
      cases hyr : strTruthy a.github_raw <;>
        simp [loadCSSFetchPhase, hx, hyp, hyr]
  refine ⟨h0, ?_, ?_⟩
  · intro hf
    obtain ⟨hx, hyp, hyr⟩ := h0.mp hf
    have hpu : jsOr a.github_raw a.github_pages = a.github_raw := by
      simp [jsOr, hyr]
    rw [hpu] at hx
    by_cases hpr : a.github_pages = a.github_raw
    · have hpu2 : jsOr a.github_raw a.github_raw = a.github_raw := by
        simp [jsOr, hyr]
      simp [loadCSSFetchPhase, hpr, hpu2, hx, hyp, hyr]
    · simp [loadCSSFetchPhase, hpu, hx, hyp, hyr, hpr]
  · intro hfailP hsuccS hs htr htp
    have hm := effectiveAttempts_pos st h3 none
    have hph := loadCSSFetchPhase_PS st net a k s hm htr htp hfailP hsuccS
    have heq : loadCSS st net now name k =
        loadCSSFetchStore st net now name a ("css_" ++ name) k := by
      rcases hbypass with hnone | ⟨e, cc, he, hcc, hfresh⟩
      · exact loadCSS_miss st net now name k cfg a hc ha hnone
      · exact loadCSS_stale st net now name k cfg a e cc hc ha he hcc hfresh
    constructor
    · rw [heq]
      unfold loadCSSFetchStore
      simp [hph.1, hs]
    · rw [heq, loadCSSFetchStore_requests, hph.2]

/-- Witness for C1: with primary `"P"` always failing and secondary `"S"`
succeeding with `"sbody"`, `loadCSS` returns `"sbody"` after 3 fetches of
`"P"` followed by one fetch of `"S"`. -/
theorem claim_C1_witness :
    (loadCSS exSt exNetPS 0 "popup" 0).result = .ok "sbody" ∧
    (loadCSS exSt exNetPS 0 "popup" 0).requests =
      List.replicate (effectiveAttempts exSt none) exAsset.github_raw
        ++ [exAsset.github_pages] :=
  (claim_C1_fallback_selection exSt exNetPS 0 "popup" 0 exCfg exAsset "sbody" rfl rfl
    (by decide) (Or.inl rfl)).2.2 (fun _ => rfl) (fun _ => rfl) (by decide) rfl rfl

/-- C2 counterexample: with a cache entry stored at time 0 and
`cache_duration` 100, a first `loadCSS` call at time 99 (a hit returning
`"c"`, zero fetches) and a second call at time 150 — only 51ms later, well
within `cacheDurationMs`, with no intervening clear — make the second call
issue a network fetch and fail, instead of returning identical content with
no network access. -/
theorem claim_C2_counterexample :
    ((150 : Int) - 99 < 100) ∧
    exCfgSolo.cdn_config = some ⟨none, some 100, some 1, some 1⟩ ∧
    (loadCSS exStSolo exNetFail 99 "popup" 0).result = .ok "c" ∧
    (loadCSS exStSolo exNetFail 99 "popup" 0).requests = [] ∧
    (loadCSS (loadCSS exStSolo exNetFail 99 "popup" 0).state exNetFail 150 "popup" 0).result
      = .error (.loadFailed "popup") ∧
    (loadCSS (loadCSS exStSolo exNetFail 99 "popup" 0).state exNetFail 150 "popup" 0).requests
      = [some "u"] := by
  decide

/-- **C2 (amended).** For every asset name with a cache entry, `loadAsset`
returns the cached content with zero network fetches exactly when
`now - entry.timestampMs < cacheDurationMs` at the time of the call; once
`cacheDurationMs` has elapsed since the entry's timestamp the next call
performs at least one network attempt; and two calls with no intervening
clear, **the second within `cacheDurationMs` of the cache entry's
timestamp**, return identical content with the second call doing no network
access. -/
theorem claim_C2_cache_semantics (st : LoaderState)
    (net : Nat → Option String → FetchOutcome) (now : Int) (name : String) (k : Nat)
    (cfg : Config) (a : CssAsset) (e : CacheEntry) (cc : CdnConfig) (d : Int)
    (h3 : st.retryAttempts = 3)
    (hc : st.config = some cfg) (ha : lookupA cfg.css name = some a)
    (he : lookupA st.cache ("css_" ++ name) = some e)
    (hcc : cfg.cdn_config = some cc) (hd : cc.cache_duration = some d) :
    (now - e.timestamp < d →
        loadCSS st net now name k = ⟨.ok e.content, st, [], [], false⟩)
  ∧ (¬ now - e.timestamp < d → 1 ≤ (loadCSS st net now name k).requests.length)
  ∧ (∀ (net2 : Nat → Option String → FetchOutcome) (now2 : Int) (k2 : Nat) (c : String)
        (e2 : CacheEntry),
        (loadCSS st net now name k).result = .ok c →
        lookupA (loadCSS st net now name k).state.cache ("css_" ++ name) = some e2 →
        now2 - e2.timestamp < d →
        (loadCSS (loadCSS st net now name k).state net2 now2 name k2).result = .ok c ∧
        (loadCSS (loadCSS st net now name k).state net2 now2 name k2).requests = []) := by
  refine ⟨?_, ?_, ?_⟩
  · intro hfr
    have hfresh : cacheFresh cc e now = true := by
      simp [cacheFresh, hd]
      exact hfr
    exact loadCSS_hit st net now name k cfg a e cc hc ha he hcc hfresh
  · intro hfr
    have hfresh : cacheFresh cc e now = false := by
      simp [cacheFresh, hd]
      omega
    rw [loadCSS_stale st net now name k cfg a e cc hc ha he hcc hfresh,
      loadCSSFetchStore_requests]
    exact loadCSSFetchPhase_requests_pos st net a k (effectiveAttempts_pos st h3 none)
  · intro net2 now2 k2 c e2 hok he2 hfr2
    obtain ⟨ts, hts⟩ := loadCSS_ok_cache st net now name k c hok
    have he2c : e2 = ⟨c, ts⟩ := by
      rw [he2] at hts
      exact Option.some.inj hts
    have hcfg2 : (loadCSS st net now name k).state.config = some cfg := by
      rw [loadCSS_config_preserved]
      exact hc
    have hfresh2 : cacheFresh cc e2 now2 = true := by
      simp [cacheFresh, hd]
      exact hfr2
    rw [loadCSS_hit (loadCSS st net now name k).state net2 now2 name k2 cfg a e2 cc
      hcfg2 ha he2 hcc hfresh2]
    constructor
    · show LoadResult.ok e2.content = LoadResult.ok c
      rw [he2c]
    · rfl

/-- Witness for C2: a call at time 50 against the entry stored at time 0
with TTL 100 is a pure cache hit, and a call at time 150 (TTL elapsed)
issues at least one fetch. -/
theorem claim_C2_witness :
    loadCSS exStSolo exNetFail 50 "popup" 0 = ⟨.ok "c", exStSolo, [], [], false⟩ ∧
    1 ≤ (loadCSS exStSolo exNetFail 150 "popup" 0).requests.length := by
  constructor
  · exact (claim_C2_cache_semantics exStSolo exNetFail 50 "popup" 0 exCfgSolo exAssetSolo
      ⟨"c", 0⟩ ⟨none, some 100, some 1, some 1⟩ 100 rfl rfl (by decide) (by decide)
      rfl rfl).1 (by decide)
  · exact (claim_C2_cache_semantics exStSolo exNetFail 150 "popup" 0 exCfgSolo exAssetSolo
      ⟨"c", 0⟩ ⟨none, some 100, some 1, some 1⟩ 100 rfl rfl (by decide) (by decide)
      rfl rfl).2.1 (by decide)
